import Mathlib

/-!
Shallow embedding of the quota-enforced file storage pipeline of the
File_Storage_Api repository (Go).  The embedded functions mirror, line by
line, the source functions in:
  - src/src/models/models.go   (User, GetUserByID, UpdateStorageUsed)
  - src/src/models/file.go     (FileMetadata, GetFileByID, CreateFileMetadata,
                                DeleteFileMetadata, FileExistsByName)
  - src/src/storage/file_service.go (UploadFile, DeleteFile, DownloadFile)
  - src/src/handlers/file_handlers.go (UploadFile/DownloadFile/DeleteFile handlers)
  - src/src/handlers/auth_handlers.go (RegisterUser: fresh user with
                                storage_used = 0)

Modelling conventions:
  - MongoDB collections become Lean lists; `FindOne` is `List.find?` on the
    same filter, `UpdateOne` / `DeleteOne` update or delete the first
    matching document (Mongo semantics: at most one document is affected).
  - The filesystem blob area is an association list from path to byte
    content; `os.Create` truncates (writes an empty blob), `io.Copy` to the
    destination writes the content, `os.Remove` erases the entry and a
    missing entry is not an error (`os.IsNotExist` branch).
  - Go `int64` sizes are modelled as `Int` (no execution of this code can
    approach the 2^63 boundary: usage stays within `[0, storage_limit]`).
  - `time.Now()` is a logical clock in the store, bumped at each write.
  - Fallible environment effects (temp-file creation, stream reads, seeks,
    destination create/copy, store writes, blob open/remove) are injected
    through an `Env` record of failure flags with the corresponding
    underlying error texts; Go's `fmt.Errorf("...: %w", err)` wrapping is
    string concatenation, exactly as `Error()` renders it.
  - A Go function returning `(T, error)` whose side effects live in the
    store becomes `Store × Except String T`: the store is returned on every
    path, so post-error states (compensations) are observable.
-/

/-- Error-message constants from src/src/constants/constants.go. -/
def MessageUserNotFound : String := "User not found"

def MessageUserExists : String := "User already exists"

def MessageFileNotFound : String := "File not found"

def MessageFileDuplicate : String := "File with the same name already exists"

def MessageStorageLimitExceeded : String := "Storage limit exceeded"

def MessageFileUploaded : String := "File uploaded successfully"

def MessageFileDeleted : String := "File deleted successfully"

/-- models.User (src/src/models/models.go). -/
structure User where
  id : Nat
  username : String
  password : String
  storageLimit : Int
  storageUsed : Int
  createdAt : Nat
  updatedAt : Nat
deriving Repr, DecidableEq

/-- models.FileMetadata (src/src/models/file.go). -/
structure FileMetadata where
  id : Nat
  userId : Nat
  fileName : String
  filePath : String
  size : Int
  createdAt : Nat
  updatedAt : Nat
deriving Repr, DecidableEq

/-- The persistent state: the users collection, the files collection, the
filesystem blob area (path to byte content), the id allocator for inserted
file documents, and the logical clock standing for `time.Now()`. -/
structure Store where
  users : List User
  files : List FileMetadata
  blobs : List (String × List Nat)
  nextFileId : Nat
  clock : Nat
deriving Repr, DecidableEq

/-- Environment failure injection: each flag makes the corresponding
fallible call in the Go source fail, and the paired text is the underlying
error's `Error()` string (the store's or OS's internal message). -/
structure Env where
  parseFormFails : Bool
  mkdirFails : Bool
  mkdirErrText : String
  tmpCreateFails : Bool
  tmpCreateErrText : String
  readFails : Bool
  readErrText : String
  seekFails : Bool
  seekErrText : String
  createDestFails : Bool
  createDestErrText : String
  copyDestFails : Bool
  copyDestErrText : String
  metaInsertFails : Bool
  metaInsertErrText : String
  quotaWriteFails : Bool
  quotaWriteErrText : String
  removeFails : Bool
  removeErrText : String
  openFails : Bool
  openErrText : String
deriving Repr, DecidableEq

/-- The all-succeeding environment. -/
def envOk : Env :=
  { parseFormFails := false
    mkdirFails := false, mkdirErrText := ""
    tmpCreateFails := false, tmpCreateErrText := ""
    readFails := false, readErrText := ""
    seekFails := false, seekErrText := ""
    createDestFails := false, createDestErrText := ""
    copyDestFails := false, copyDestErrText := ""
    metaInsertFails := false, metaInsertErrText := ""
    quotaWriteFails := false, quotaWriteErrText := ""
    removeFails := false, removeErrText := ""
    openFails := false, openErrText := "" }

/-- models.GetUserByID: `FindOne({_id: id})`; `ErrNoDocuments` maps to the
"User not found" error. -/
def GetUserByID (s : Store) (uid : Nat) : Except String User :=
  match s.users.find? (fun u => u.id == uid) with
  | some u => .ok u
  | none => .error MessageUserNotFound

/-- Mongo `UpdateOne({_id: uid}, {$set: {storage_used: ns, updated_at: t}})`:
updates the first matching document only. -/
def updateOneUser : List User → Nat → Int → Nat → List User
  | [], _, _, _ => []
  | u :: rest, uid, ns, t =>
    if u.id == uid then { u with storageUsed := ns, updatedAt := t } :: rest
    else u :: updateOneUser rest uid ns t

/-- models.UpdateStorageUsed (src/src/models/models.go lines 167-199):
reads the user, computes `newSize := storage_used + sizeChange`, clamps a
negative result to 0, rejects `sizeChange > 0 && newSize > storage_limit`
with "Storage limit exceeded" before any write, then persists `newSize`
and a fresh `updated_at` via `UpdateOne`. -/
def UpdateStorageUsed (env : Env) (s : Store) (uid : Nat) (sizeChange : Int) :
    Except String Store :=
  match GetUserByID s uid with
  | .error e => .error e
  | .ok user =>
    let newSize0 := user.storageUsed + sizeChange
    let newSize := if newSize0 < 0 then 0 else newSize0
    if sizeChange > 0 ∧ newSize > user.storageLimit then
      .error MessageStorageLimitExceeded
    else if env.quotaWriteFails then
      .error env.quotaWriteErrText
    else
      .ok { s with users := updateOneUser s.users uid newSize s.clock
                   clock := s.clock + 1 }

/-- The compensation idiom `_ = models.UpdateStorageUsed(userID, -size)`:
the result is discarded, so on failure the store is left as it was. -/
def tryUpdateStorageUsed (env : Env) (s : Store) (uid : Nat) (d : Int) : Store :=
  match UpdateStorageUsed env s uid d with
  | .ok s' => s'
  | .error _ => s

/-- models.GetFileByID: `FindOne({_id: fileID, user_id: userID})` — the
compound filter requires both to match; `ErrNoDocuments` maps to
"File not found". -/
def GetFileByID (s : Store) (fid uid : Nat) : Except String FileMetadata :=
  match s.files.find? (fun f => f.id == fid && f.userId == uid) with
  | some f => .ok f
  | none => .error MessageFileNotFound

/-- models.FileExistsByName: `CountDocuments({user_id, file_name}) > 0`.
Defined in src/src/models/file.go lines 148-161 but never called anywhere
in the repository. -/
def FileExistsByName (s : Store) (uid : Nat) (fileName : String) : Bool :=
  s.files.any (fun f => f.userId == uid && f.fileName == fileName)

/-- models.CreateFileMetadata: sets both timestamps to now, `InsertOne`,
and receives the inserted id. -/
def CreateFileMetadata (s : Store) (uid : Nat) (fileName filePath : String)
    (size : Int) : Store × FileMetadata :=
  let meta : FileMetadata :=
    { id := s.nextFileId, userId := uid, fileName := fileName
      filePath := filePath, size := size
      createdAt := s.clock, updatedAt := s.clock }
  ({ s with files := s.files ++ [meta], nextFileId := s.nextFileId + 1
            clock := s.clock + 1 }, meta)

/-- Mongo `DeleteOne({_id: fid, user_id: uid})`: removes the first matching
document, returning the remaining list and the deleted count. -/
def deleteOneFile : List FileMetadata → Nat → Nat → List FileMetadata × Nat
  | [], _, _ => ([], 0)
  | f :: rest, fid, uid =>
    if f.id == fid && f.userId == uid then (rest, 1)
    else
      let r := deleteOneFile rest fid uid
      (f :: r.1, r.2)

/-- models.DeleteFileMetadata: `DeleteOne` on the compound key; a zero
deleted count is "File not found". -/
def DeleteFileMetadata (s : Store) (fid uid : Nat) : Store × Except String Unit :=
  let r := deleteOneFile s.files fid uid
  if r.2 == 0 then (s, .error MessageFileNotFound)
  else ({ s with files := r.1 }, .ok ())

/-- Write (create or truncate-and-overwrite) the blob at a path. -/
def writeBlob (s : Store) (path : String) (content : List Nat) : Store :=
  { s with blobs := (path, content) :: s.blobs.filter (fun b => !(b.1 == path)) }

/-- `os.Remove`: erase the blob at a path; a missing blob is a no-op at the
store level (the `os.IsNotExist` case). -/
def removeBlob (s : Store) (path : String) : Store :=
  { s with blobs := s.blobs.filter (fun b => !(b.1 == path)) }

/-- The compensation idiom `_ = os.Remove(filePath)`: the result is
discarded, so an injected removal failure leaves the store as it was. -/
def tryRemoveBlob (env : Env) (s : Store) (path : String) : Store :=
  if env.removeFails then s else removeBlob s path

/-- Look up the blob content at a path. -/
def blobAt (s : Store) (path : String) : Option (List Nat) :=
  (s.blobs.find? (fun b => b.1 == path)).map (fun b => b.2)

/-- Observe a user's `storage_used` (none when the user is absent). -/
def storageUsedOf (s : Store) (uid : Nat) : Option Int :=
  (s.users.find? (fun u => u.id == uid)).map (fun u => u.storageUsed)

/-- The final blob path `filepath.Join(storagePath, username, fileName)`. -/
def finalPath (sp username fileName : String) : String :=
  sp ++ "/" ++ username ++ "/" ++ fileName

/-- storage.FileService.UploadFile (src/src/storage/file_service.go lines
46-123), step by step:
1. `GetUserByID`; any error becomes "User not found".
2. `createUserDirectory` (mkdir, can fail).
3. `os.CreateTemp` then `io.Copy(tmpFile, fileData)` to measure `size`
   (either can fail; no store side effect yet).
4. `UpdateStorageUsed(userID, size)` — the quota reservation.
5. `tmpFile.Seek`; on failure roll back the reservation.
6. `os.Create(filePath)` (truncates any existing blob at that path); on
   failure roll back the reservation.
7. `io.Copy(destFile, tmpFile)`; on failure roll back the reservation and
   remove the partial blob.
8. `CreateFileMetadata`; on failure roll back the reservation and remove
   the just-written blob.
There is no duplicate-name check anywhere in this function. -/
def UploadFile (env : Env) (sp : String) (s : Store) (uid : Nat)
    (fileName : String) (content : List Nat) : Store × Except String FileMetadata :=
  match GetUserByID s uid with
  | .error _ => (s, .error MessageUserNotFound)
  | .ok user =>
    if env.mkdirFails then
      (s, .error ("could not create user directory: " ++ env.mkdirErrText))
    else
      let filePath := finalPath sp user.username fileName
      if env.tmpCreateFails then
        (s, .error ("failed to create temporary file: " ++ env.tmpCreateErrText))
      else if env.readFails then
        (s, .error ("failed to read file data: " ++ env.readErrText))
      else
        let size : Int := content.length
        match UpdateStorageUsed env s uid size with
        | .error e => (s, .error e)
        | .ok s1 =>
          if env.seekFails then
            (tryUpdateStorageUsed env s1 uid (-size),
             .error ("failed to reset file position: " ++ env.seekErrText))
          else if env.createDestFails then
            (tryUpdateStorageUsed env s1 uid (-size),
             .error ("failed to create file: " ++ env.createDestErrText))
          else
            let s2 := writeBlob s1 filePath []
            if env.copyDestFails then
              let s3 := tryUpdateStorageUsed env s2 uid (-size)
              let s4 := tryRemoveBlob env s3 filePath
              (s4, .error ("failed to save file: " ++ env.copyDestErrText))
            else
              let s3 := writeBlob s2 filePath content
              if env.metaInsertFails then
                let s4 := tryUpdateStorageUsed env s3 uid (-size)
                let s5 := tryRemoveBlob env s4 filePath
                (s5, .error ("failed to save file metadata: " ++ env.metaInsertErrText))
              else
                let r := CreateFileMetadata s3 uid fileName filePath size
                (r.1, .ok r.2)

/-- storage.FileService.DeleteFile (src/src/storage/file_service.go lines
126-145): look up the record on the compound key, remove the blob (a
missing blob is not an error, any other removal error aborts with the
record and ledger untouched), reclaim the quota, delete the record. -/
def DeleteFile (env : Env) (s : Store) (fid uid : Nat) : Store × Except String Unit :=
  match GetFileByID s fid uid with
  | .error e => (s, .error e)
  | .ok file =>
    if env.removeFails then
      (s, .error ("failed to delete file: " ++ env.removeErrText))
    else
      let s1 := removeBlob s file.filePath
      match UpdateStorageUsed env s1 uid (-file.size) with
      | .error e => (s1, .error e)
      | .ok s2 => DeleteFileMetadata s2 fid uid

/-- storage.FileService.DownloadFile (src/src/storage/file_service.go lines
148-162): compound-key lookup, then `os.Open` the blob; both the injected
open failure and a missing blob surface as a wrapped open error. -/
def DownloadFile (env : Env) (s : Store) (fid uid : Nat) :
    Store × Except String (String × List Nat) :=
  match GetFileByID s fid uid with
  | .error e => (s, .error e)
  | .ok file =>
    if env.openFails then
      (s, .error ("failed to open file: " ++ env.openErrText))
    else
      match blobAt s file.filePath with
      | none => (s, .error ("failed to open file: no such file or directory"))
      | some content => (s, .ok (file.fileName, content))

/-- handlers.AuthHandler.RegisterUser, persistence part (src/src/handlers/
auth_handlers.go lines 29-41 with models.CreateUser): a fresh user gets
`storage_limit` from configuration and `storage_used = 0`; a duplicate
username is rejected. -/
def CreateUser (s : Store) (uid : Nat) (username password : String)
    (storageLimit : Int) : Store × Except String Unit :=
  if s.users.any (fun u => u.username == username) then
    (s, .error MessageUserExists)
  else
    ({ s with
        users := s.users ++
          [{ id := uid, username := username, password := password
             storageLimit := storageLimit, storageUsed := 0
             createdAt := s.clock, updatedAt := s.clock }]
        clock := s.clock + 1 }, .ok ())

/-- An HTTP response as the handlers produce it: status code, body message
(the `error` field or the `message` field), and the `file` payload of a
successful upload. -/
structure UploadResp where
  store : Store
  status : Nat
  body : String
  file : Option FileMetadata
deriving Repr, DecidableEq

/-- handlers.FileHandler.UploadFile (src/src/handlers/file_handlers.go
lines 30-77): form-parse failure and a missing `file` field are 400 with
fixed texts; every error from the service is returned as 400 with
`err.Error()` as the body; success is 201 with the message and the created
metadata. -/
def UploadFileHandler (env : Env) (sp : String) (s : Store) (uid : Nat)
    (form : Option (String × List Nat)) : UploadResp :=
  if env.parseFormFails then
    { store := s, status := 400, body := "Failed to parse form", file := none }
  else
    match form with
    | none => { store := s, status := 400, body := "No file provided", file := none }
    | some (fileName, content) =>
      match UploadFile env sp s uid fileName content with
      | (s', .error e) => { store := s', status := 400, body := e, file := none }
      | (s', .ok m) =>
        { store := s', status := 201, body := MessageFileUploaded, file := some m }

/-- A download response: status, body message, and on success the
`(Content-Disposition filename, bytes)` payload. -/
structure DownloadResp where
  store : Store
  status : Nat
  body : String
  payload : Option (String × List Nat)
deriving Repr, DecidableEq

/-- handlers.FileHandler.DownloadFile (src/src/handlers/file_handlers.go
lines 179-200): invalid id is 400; every service error is 404 with the
fixed "File not found" body. -/
def DownloadFileHandler (env : Env) (s : Store) (idValid : Bool) (fid uid : Nat) :
    DownloadResp :=
  if ¬ idValid then
    { store := s, status := 400, body := "Invalid file ID", payload := none }
  else
    match DownloadFile env s fid uid with
    | (s', .error _) =>
      { store := s', status := 404, body := MessageFileNotFound, payload := none }
    | (s', .ok p) =>
      { store := s', status := 200, body := "", payload := some p }

/-- A delete response: status and body message. -/
structure DeleteResp where
  store : Store
  status : Nat
  body : String
deriving Repr, DecidableEq

/-- handlers.FileHandler.DeleteFile (src/src/handlers/file_handlers.go
lines 203-222): invalid id is 400; every service error is 404 with the
fixed "File not found" body; success is 200. -/
def DeleteFileHandler (env : Env) (s : Store) (idValid : Bool) (fid uid : Nat) :
    DeleteResp :=
  if ¬ idValid then
    { store := s, status := 400, body := "Invalid file ID" }
  else
    match DeleteFile env s fid uid with
    | (s', .error _) => { store := s', status := 404, body := MessageFileNotFound }
    | (s', .ok _) => { store := s', status := 200, body := MessageFileDeleted }

/-- A committed operation of the core pipeline: an upload or a delete. -/
inductive Op where
  | upload (uid : Nat) (fileName : String) (content : List Nat)
  | delete (fid uid : Nat)
deriving Repr, DecidableEq

/-- Run one operation, keeping whatever store it returns (committed or
compensated). -/
def runOp (sp : String) (s : Store) : Env × Op → Store
  | (env, .upload uid fileName content) => (UploadFile env sp s uid fileName content).1
  | (env, .delete fid uid) => (DeleteFile env s fid uid).1

/-- Run a sequence of operations, each under its own environment. -/
def runOps (sp : String) (ops : List (Env × Op)) (s : Store) : Store :=
  ops.foldl (runOp sp) s

/-- The per-user accounting invariant `0 <= storage_used <= storage_limit`. -/
def userInv (u : User) : Prop :=
  0 ≤ u.storageUsed ∧ u.storageUsed ≤ u.storageLimit

/-- The store-wide invariant: every user satisfies `userInv`. -/
def storeInv (s : Store) : Prop :=
  ∀ u ∈ s.users, userInv u

instance : DecidablePred userInv := fun u => by
  unfold userInv; infer_instance

instance (s : Store) : Decidable (storeInv s) := by
  unfold storeInv; infer_instance

/-! ### Supporting lemmas -/

theorem GetUserByID_ok {s : Store} {uid : Nat} {user : User}
    (h : GetUserByID s uid = .ok user) :
    s.users.find? (fun u => u.id == uid) = some user := by
  unfold GetUserByID at h
  cases hf : s.users.find? (fun u => u.id == uid) with
  | some u => rw [hf] at h; injection h with h; rw [h]
  | none => rw [hf] at h; exact absurd h (by simp)

theorem GetUserByID_mem {s : Store} {uid : Nat} {user : User}
    (h : GetUserByID s uid = .ok user) : user ∈ s.users :=
  List.mem_of_find?_eq_some (GetUserByID_ok h)

theorem updateOneUser_inv (l : List User) (uid : Nat) (ns : Int) (t : Nat)
    (user : User) (hf : l.find? (fun u => u.id == uid) = some user)
    (hinv : ∀ u ∈ l, userInv u) (h0 : 0 ≤ ns) (h1 : ns ≤ user.storageLimit) :
    ∀ u ∈ updateOneUser l uid ns t, userInv u := by
  induction l with
  | nil => intro u hu; simp [updateOneUser] at hu
  | cons a rest ih =>
    intro u hu
    by_cases ha : (a.id == uid) = true
    · rw [List.find?_cons_of_pos (p := fun u => u.id == uid) rest ha] at hf
      injection hf with hf
      subst hf
      simp only [updateOneUser, ha, if_true] at hu
      rcases List.mem_cons.mp hu with h | h
      · subst h
        exact ⟨h0, h1⟩
      · exact hinv u (List.mem_cons_of_mem _ h)
    · rw [List.find?_cons_of_neg (p := fun u => u.id == uid) rest ha] at hf
      simp only [updateOneUser, ha, if_false, Bool.false_eq_true] at hu
      rcases List.mem_cons.mp hu with h | h
      · subst h; exact hinv _ (List.mem_cons_self _ _)
      · exact ih hf (fun v hv => hinv v (List.mem_cons_of_mem _ hv)) u h

theorem UpdateStorageUsed_storeInv {env : Env} {s : Store} {uid : Nat} {d : Int}
    {s' : Store} (h : UpdateStorageUsed env s uid d = .ok s') (hinv : storeInv s) :
    storeInv s' := by
  unfold UpdateStorageUsed at h
  cases hu : GetUserByID s uid with
  | error e => rw [hu] at h; exact absurd h (by simp)
  | ok user =>
    rw [hu] at h
    simp only at h
    rcases hinv user (GetUserByID_mem hu) with ⟨hl, hr⟩
    by_cases hg : d > 0 ∧
        (if user.storageUsed + d < 0 then (0 : Int) else user.storageUsed + d) >
          user.storageLimit
    · rw [if_pos hg] at h; exact absurd h (by simp)
    · rw [if_neg hg] at h
      by_cases hw : env.quotaWriteFails = true
      · rw [if_pos hw] at h; exact absurd h (by simp)
      · rw [if_neg hw] at h
        injection h with h
        subst h
        intro u hu'
        refine updateOneUser_inv s.users uid _ s.clock user (GetUserByID_ok hu)
          hinv ?_ ?_ u hu'
        · split <;> omega
        · by_cases hd : d > 0
          · exact not_lt.mp (not_and.mp hg hd)
          · split <;> omega

theorem tryUpdateStorageUsed_storeInv (env : Env) (s : Store) (uid : Nat) (d : Int)
    (hinv : storeInv s) : storeInv (tryUpdateStorageUsed env s uid d) := by
  unfold tryUpdateStorageUsed
  cases h : UpdateStorageUsed env s uid d with
  | ok s' => exact UpdateStorageUsed_storeInv h hinv
  | error e => exact hinv

theorem storeInv_congr {s s' : Store} (h : s'.users = s.users) (hinv : storeInv s) :
    storeInv s' := by
  intro u hu
  exact hinv u (h ▸ hu)

theorem tryRemoveBlob_users (env : Env) (s : Store) (p : String) :
    (tryRemoveBlob env s p).users = s.users := by
  unfold tryRemoveBlob; split <;> rfl

theorem UploadFile_storeInv (env : Env) (sp : String) (s : Store) (uid : Nat)
    (fileName : String) (content : List Nat) (hinv : storeInv s) :
    storeInv (UploadFile env sp s uid fileName content).1 := by
  unfold UploadFile
  cases hu : GetUserByID s uid with
  | error e => exact hinv
  | ok user =>
    simp only
    split
    · exact hinv
    · split
      · exact hinv
      · split
        · exact hinv
        · cases hq : UpdateStorageUsed env s uid content.length with
          | error e => exact hinv
          | ok s1 =>
            have hinv1 : storeInv s1 := UpdateStorageUsed_storeInv hq hinv
            simp only
            split
            · exact tryUpdateStorageUsed_storeInv env s1 uid _ hinv1
            · split
              · exact tryUpdateStorageUsed_storeInv env s1 uid _ hinv1
              · have hinv2 : storeInv (writeBlob s1 (finalPath sp user.username fileName) []) :=
                  storeInv_congr rfl hinv1
                split
                · exact storeInv_congr (tryRemoveBlob_users _ _ _)
                    (tryUpdateStorageUsed_storeInv env _ uid _ hinv2)
                · have hinv3 : storeInv (writeBlob
                      (writeBlob s1 (finalPath sp user.username fileName) [])
                      (finalPath sp user.username fileName) content) :=
                    storeInv_congr rfl hinv2
                  split
                  · exact storeInv_congr (tryRemoveBlob_users _ _ _)
                      (tryUpdateStorageUsed_storeInv env _ uid _ hinv3)
                  · exact storeInv_congr rfl hinv3

theorem DeleteFileMetadata_users (s : Store) (fid uid : Nat) :
    (DeleteFileMetadata s fid uid).1.users = s.users := by
  simp only [DeleteFileMetadata]
  split <;> rfl

theorem DeleteFile_storeInv (env : Env) (s : Store) (fid uid : Nat)
    (hinv : storeInv s) : storeInv (DeleteFile env s fid uid).1 := by
  unfold DeleteFile
  cases hf : GetFileByID s fid uid with
  | error e => exact hinv
  | ok file =>
    simp only
    split
    · exact hinv
    · have hinv1 : storeInv (removeBlob s file.filePath) := storeInv_congr rfl hinv
      cases hq : UpdateStorageUsed env (removeBlob s file.filePath) uid (-file.size) with
      | error e => exact hinv1
      | ok s2 =>
        exact storeInv_congr (DeleteFileMetadata_users _ _ _)
          (UpdateStorageUsed_storeInv hq hinv1)

theorem runOp_storeInv (sp : String) (s : Store) (eo : Env × Op)
    (hinv : storeInv s) : storeInv (runOp sp s eo) := by
  rcases eo with ⟨env, op⟩
  cases op with
  | upload uid fileName content => exact UploadFile_storeInv env sp s uid fileName content hinv
  | delete fid uid => exact DeleteFile_storeInv env s fid uid hinv

theorem runOps_storeInv (sp : String) (ops : List (Env × Op)) (s : Store)
    (hinv : storeInv s) : storeInv (runOps sp ops s) := by
  induction ops generalizing s with
  | nil => exact hinv
  | cons eo rest ih => exact ih _ (runOp_storeInv sp s eo hinv)

theorem CreateUser_storeInv (s : Store) (uid : Nat) (username password : String)
    (storageLimit : Int) (hinv : storeInv s) (hlim : 0 ≤ storageLimit) :
    storeInv (CreateUser s uid username password storageLimit).1 := by
  unfold CreateUser
  split
  · exact hinv
  · intro u hu
    simp only at hu
    rcases List.mem_append.mp hu with h | h
    · exact hinv u h
    · rcases List.mem_singleton.mp h with rfl
      exact ⟨le_refl 0, hlim⟩

/-! ### Claim C1 -/

/-- C1: for every user and every sequence of committed upload and delete
operations starting from a freshly registered account (RegisterUser stores
`storage_used = 0` with the configured nonnegative limit), every user of
the store satisfies `0 ≤ storage_used ≤ storage_limit` afterwards:
`UpdateStorageUsed` clamps any result below zero to zero and refuses any
positive increment whose result would exceed `storage_limit`, and it is
the only mutator of `storage_used`.  The operation list is arbitrary (each
step under an arbitrary failure environment), so every prefix — the state
after each committed operation — is an instance of this statement. -/
theorem c1_storage_invariant (s : Store) (uid : Nat) (username password : String)
    (storageLimit : Int) (sp : String) (ops : List (Env × Op))
    (hinv : storeInv s) (hlim : 0 ≤ storageLimit) :
    storeInv (runOps sp ops (CreateUser s uid username password storageLimit).1) :=
  runOps_storeInv sp ops _
    (CreateUser_storeInv s uid username password storageLimit hinv hlim)

/-- C1 witness: a fresh 512-byte-limit account, a committed 3-byte upload
and its delete; the invariant holds throughout. -/
theorem c1_storage_invariant_witness :
    storeInv (runOps "st"
      [(envOk, .upload 1 "test-file.txt" [0, 0, 0]), (envOk, .delete 0 1)]
      (CreateUser ⟨[], [], [], 0, 0⟩ 1 "alice" "pw" 512).1) :=
  c1_storage_invariant ⟨[], [], [], 0, 0⟩ 1 "alice" "pw" 512 "st"
    [(envOk, .upload 1 "test-file.txt" [0, 0, 0]), (envOk, .delete 0 1)]
    (by decide) (by decide)

/-! ### Claim C4 -/

/-- C4: for an existing user with usage `used` and limit `limit` and any
delta, the quota reservation computes `new = used + delta` clamped below
at 0; if `delta > 0` and `new > limit` it fails with "Storage limit
exceeded" returning no updated store (nothing written); otherwise —
including `delta ≤ 0`, arbitrarily large negative deltas, and the boundary
`new = limit` — it persists `new` together with the fresh `updated_at`
timestamp (the store write itself assumed not to fail). -/
theorem c4_quota_reservation (env : Env) (s : Store) (uid : Nat) (delta : Int)
    (user : User) (hu : GetUserByID s uid = .ok user)
    (hw : env.quotaWriteFails = false) :
    ((delta > 0 ∧
        (if user.storageUsed + delta < 0 then (0 : Int) else user.storageUsed + delta) >
          user.storageLimit) →
      UpdateStorageUsed env s uid delta = .error MessageStorageLimitExceeded) ∧
    (¬(delta > 0 ∧
        (if user.storageUsed + delta < 0 then (0 : Int) else user.storageUsed + delta) >
          user.storageLimit) →
      UpdateStorageUsed env s uid delta = .ok
        { s with
            users := updateOneUser s.users uid
              (if user.storageUsed + delta < 0 then (0 : Int) else user.storageUsed + delta)
              s.clock
            clock := s.clock + 1 }) := by
  constructor
  · intro hg
    unfold UpdateStorageUsed
    rw [hu]
    simp only
    rw [if_pos hg]
  · intro hg
    unfold UpdateStorageUsed
    rw [hu]
    simp only
    rw [if_neg hg, if_neg (by simp [hw])]

/-- C4 witness: user with limit 512 and usage 100; a delta of -200 is
clamped to 0 and persisted with the updated timestamp. -/
theorem c4_quota_reservation_witness :
    UpdateStorageUsed envOk
      ⟨[⟨1, "alice", "pw", 512, 100, 0, 0⟩], [], [], 0, 7⟩ 1 (-200) =
      .ok ⟨[⟨1, "alice", "pw", 512, 0, 0, 7⟩], [], [], 0, 8⟩ :=
  (c4_quota_reservation envOk ⟨[⟨1, "alice", "pw", 512, 100, 0, 0⟩], [], [], 0, 7⟩
    1 (-200) ⟨1, "alice", "pw", 512, 100, 0, 0⟩ rfl rfl).2 (by decide)

/-! ### Claim C3 -/

theorem UpdateStorageUsed_eq_error (env : Env) (s : Store) (uid : Nat) (d : Int)
    (user : User) (hu : GetUserByID s uid = .ok user)
    (hg : d > 0 ∧
      (if user.storageUsed + d < 0 then (0 : Int) else user.storageUsed + d) >
        user.storageLimit) :
    UpdateStorageUsed env s uid d = .error MessageStorageLimitExceeded := by
  unfold UpdateStorageUsed
  rw [hu]
  simp only
  rw [if_pos hg]

theorem UpdateStorageUsed_eq_ok (env : Env) (s : Store) (uid : Nat) (d : Int)
    (user : User) (hu : GetUserByID s uid = .ok user)
    (hw : env.quotaWriteFails = false)
    (hg : ¬(d > 0 ∧
      (if user.storageUsed + d < 0 then (0 : Int) else user.storageUsed + d) >
        user.storageLimit)) :
    UpdateStorageUsed env s uid d = .ok
      { s with
          users := updateOneUser s.users uid
            (if user.storageUsed + d < 0 then (0 : Int) else user.storageUsed + d)
            s.clock
          clock := s.clock + 1 } := by
  unfold UpdateStorageUsed
  rw [hu]
  simp only
  rw [if_neg hg, if_neg (by simp [hw])]

/-- C3: an upload whose measured size would push `storage_used` above
`storage_limit` fails with "Storage limit exceeded" and returns the store
exactly unchanged — `storage_used` keeps its prior value, no FileRecord is
created, and the blob area (in particular the final location) is exactly
as before.  The quota reservation is checked before any blob write, so the
failure has no side effect at all. -/
theorem c3_quota_exceeded_upload (env : Env) (sp : String) (s : Store)
    (uid : Nat) (fileName : String) (content : List Nat) (user : User)
    (hu : GetUserByID s uid = .ok user)
    (hmk : env.mkdirFails = false) (htmp : env.tmpCreateFails = false)
    (hrd : env.readFails = false)
    (hused : 0 ≤ user.storageUsed)
    (hlim : user.storageUsed ≤ user.storageLimit)
    (hover : user.storageUsed + content.length > user.storageLimit) :
    UploadFile env sp s uid fileName content = (s, .error MessageStorageLimitExceeded) := by
  have hq : UpdateStorageUsed env s uid (content.length : Int) =
      .error MessageStorageLimitExceeded := by
    refine UpdateStorageUsed_eq_error env s uid _ user hu ⟨by omega, ?_⟩
    rw [if_neg (by omega)]
    exact hover
  unfold UploadFile
  rw [hu]
  simp only [hmk, htmp, hrd, Bool.false_eq_true, if_false]
  rw [hq]

/-- C3 witness: the spec scenario — limit 512, usage 0, a 1024-byte
upload; it fails with "Storage limit exceeded", usage stays 0 and the file
list stays empty (the store is returned unchanged). -/
theorem c3_quota_exceeded_upload_witness :
    UploadFile envOk "st" ⟨[⟨1, "limiteduser", "pw", 512, 0, 0, 0⟩], [], [], 0, 0⟩ 1
      "large-file.txt" (List.replicate 1024 0) =
      (⟨[⟨1, "limiteduser", "pw", 512, 0, 0, 0⟩], [], [], 0, 0⟩,
       .error MessageStorageLimitExceeded) :=
  c3_quota_exceeded_upload envOk "st" _ 1 "large-file.txt" (List.replicate 1024 0)
    ⟨1, "limiteduser", "pw", 512, 0, 0, 0⟩ rfl rfl rfl rfl (by decide) (by decide)
    (by rw [List.length_replicate]; decide)

/-! ### Claim C2 -/

/-- The duplicate-name scenario store: user alice (id 1, limit 1048576)
already owns a committed 3-byte file named "a.txt" — a live record, its
blob, and the accounted usage of 3 bytes. -/
def dupStore : Store :=
  ⟨[⟨1, "alice", "pw", 1048576, 3, 0, 1⟩],
   [⟨0, 1, "a.txt", "st/alice/a.txt", 3, 0, 0⟩],
   [("st/alice/a.txt", [1, 2, 3])], 1, 2⟩

/-- C2 (refuting evidence): a live record named "a.txt" exists for alice
(`FileExistsByName` is true), yet a second upload of "a.txt" SUCCEEDS:
`UploadFile` performs no duplicate-name check (`FileExistsByName` and the
"File with the same name already exists" constant are defined but never
called), so the second upload inserts a second record with the same name,
overwrites the first file's blob content, and charges the quota again
(storage_used 3 → 6). -/
theorem c2_duplicate_upload_succeeds_bug :
    FileExistsByName dupStore 1 "a.txt" = true ∧
    (UploadFile envOk "st" dupStore 1 "a.txt" [4, 5, 6]).2 =
      .ok ⟨1, 1, "a.txt", "st/alice/a.txt", 3, 3, 3⟩ ∧
    ((UploadFile envOk "st" dupStore 1 "a.txt" [4, 5, 6]).1.files.filter
      (fun f => f.userId == 1 && f.fileName == "a.txt")).length = 2 ∧
    storageUsedOf (UploadFile envOk "st" dupStore 1 "a.txt" [4, 5, 6]).1 1 = some 6 ∧
    blobAt (UploadFile envOk "st" dupStore 1 "a.txt" [4, 5, 6]).1 "st/alice/a.txt" =
      some [4, 5, 6] :=
  ⟨rfl, rfl, rfl, rfl, rfl⟩

/-! ### More supporting lemmas: lookups after updates -/

theorem GetFileByID_ok {s : Store} {fid uid : Nat} {file : FileMetadata}
    (h : GetFileByID s fid uid = .ok file) :
    s.files.find? (fun f => f.id == fid && f.userId == uid) = some file := by
  unfold GetFileByID at h
  cases hf : s.files.find? (fun f => f.id == fid && f.userId == uid) with
  | some f => rw [hf] at h; injection h with h; rw [h]
  | none => rw [hf] at h; exact absurd h (by simp)

theorem find?_updateOneUser_self (l : List User) (uid : Nat) (ns : Int) (t : Nat)
    (user : User) (hf : l.find? (fun u => u.id == uid) = some user) :
    (updateOneUser l uid ns t).find? (fun u => u.id == uid) =
      some { user with storageUsed := ns, updatedAt := t } := by
  induction l with
  | nil => simp at hf
  | cons a rest ih =>
    by_cases ha : (a.id == uid) = true
    · rw [List.find?_cons_of_pos (p := fun (u : User) => u.id == uid) rest ha] at hf
      injection hf with hf
      subst hf
      simp only [updateOneUser, ha, if_true]
      exact List.find?_cons_of_pos (p := fun (u : User) => u.id == uid)
        (a := { a with storageUsed := ns, updatedAt := t }) rest ha
    · rw [List.find?_cons_of_neg (p := fun (u : User) => u.id == uid) rest ha] at hf
      simp only [updateOneUser, ha, if_false, Bool.false_eq_true]
      rw [List.find?_cons_of_neg (p := fun (u : User) => u.id == uid)
        (updateOneUser rest uid ns t) ha]
      exact ih hf

theorem GetUserByID_updateOneUser (s : Store) (uid : Nat) (ns : Int) (t : Nat)
    (user : User) (hu : GetUserByID s uid = .ok user)
    (s' : Store) (husers : s'.users = updateOneUser s.users uid ns t) :
    GetUserByID s' uid = .ok { user with storageUsed := ns, updatedAt := t } := by
  unfold GetUserByID
  rw [husers, find?_updateOneUser_self s.users uid ns t user (GetUserByID_ok hu)]

theorem storageUsedOf_of_users {s : Store} {uid : Nat} {user : User}
    (hu : GetUserByID s uid = .ok user) :
    storageUsedOf s uid = some user.storageUsed := by
  unfold storageUsedOf
  rw [GetUserByID_ok hu]
  rfl

theorem blobAt_congr {s₁ s₂ : Store} (h : s₁.blobs = s₂.blobs) (p : String) :
    blobAt s₁ p = blobAt s₂ p := by
  unfold blobAt
  rw [h]

theorem blobAt_writeBlob_self (s : Store) (p : String) (c : List Nat) :
    blobAt (writeBlob s p c) p = some c := by
  unfold blobAt writeBlob
  simp

theorem blobAt_removeBlob_self (s : Store) (p : String) :
    blobAt (removeBlob s p) p = none := by
  have h : (s.blobs.filter (fun b => !(b.1 == p))).find? (fun b => b.1 == p) = none := by
    rw [List.find?_eq_none]
    intro b hb
    have h2 := (List.mem_filter.mp hb).2
    simp only [Bool.not_eq_true'] at h2
    simp [h2]
  unfold blobAt removeBlob
  simp only [h]
  rfl

theorem deleteOneFile_of_find? (l : List FileMetadata) (fid uid : Nat)
    (f : FileMetadata)
    (hf : l.find? (fun g => g.id == fid && g.userId == uid) = some f) :
    (deleteOneFile l fid uid).2 = 1 ∧
    ((deleteOneFile l fid uid).1.filter
        (fun g => g.id == fid && g.userId == uid)).length + 1 =
      (l.filter (fun g => g.id == fid && g.userId == uid)).length := by
  induction l with
  | nil => simp at hf
  | cons a rest ih =>
    by_cases ha : (a.id == fid && a.userId == uid) = true
    · refine ⟨by simp [deleteOneFile, ha], ?_⟩
      simp [deleteOneFile, ha, List.filter_cons]
    · rw [List.find?_cons_of_neg (p := fun g => g.id == fid && g.userId == uid)
        rest ha] at hf
      obtain ⟨ih1, ih2⟩ := ih hf
      refine ⟨by simp [deleteOneFile, ha, ih1], ?_⟩
      simp only [deleteOneFile, ha, if_false, Bool.false_eq_true, List.filter_cons]
      simpa [ha] using ih2

theorem GetFileByID_eq_error_of_count0 (s : Store) (fid uid : Nat)
    (h : (s.files.filter (fun g => g.id == fid && g.userId == uid)).length = 0) :
    GetFileByID s fid uid = .error MessageFileNotFound := by
  unfold GetFileByID
  rw [List.find?_eq_none.mpr]
  intro f hf
  intro hp
  have hmem : f ∈ s.files.filter (fun g => g.id == fid && g.userId == uid) :=
    List.mem_filter.mpr ⟨hf, hp⟩
  rw [List.length_eq_zero.mp h] at hmem
  exact absurd hmem (List.not_mem_nil f)

/-! ### Claim C7 -/

/-- C7: for a valid file id owned by a different user, the compound-key
lookup `(fileID, userID)` never returns the foreign record, so Get
(`GetFileByID`), Download and Delete all fail with the same
"File not found" error the absent-file case produces — ownership mismatch
is indistinguishable from absence — and the store is returned unchanged
(no side effect). -/
theorem c7_cross_user_not_found (env : Env) (s : Store) (fid uid owner : Nat)
    (hvalid : ∃ f ∈ s.files, f.id = fid ∧ f.userId = owner)
    (howner : owner ≠ uid)
    (hno : ∀ f ∈ s.files, f.id = fid → f.userId ≠ uid) :
    GetFileByID s fid uid = .error MessageFileNotFound ∧
    DownloadFile env s fid uid = (s, .error MessageFileNotFound) ∧
    DeleteFile env s fid uid = (s, .error MessageFileNotFound) := by
  have hfind : s.files.find? (fun f => f.id == fid && f.userId == uid) = none := by
    rw [List.find?_eq_none]
    intro f hf
    simp only [Bool.and_eq_true, beq_iff_eq, not_and]
    intro h1 h2
    exact hno f hf h1 h2
  have hg : GetFileByID s fid uid = .error MessageFileNotFound := by
    unfold GetFileByID
    rw [hfind]
  refine ⟨hg, ?_, ?_⟩
  · unfold DownloadFile
    rw [hg]
  · unfold DeleteFile
    rw [hg]

/-- C7 witness: file id 5 belongs to user 2; user 1 gets "File not found"
from lookup, download and delete, with the store unchanged. -/
theorem c7_cross_user_not_found_witness :
    GetFileByID ⟨[], [⟨5, 2, "a.txt", "st/bob/a.txt", 3, 0, 0⟩], [], 6, 0⟩ 5 1 =
      .error MessageFileNotFound ∧
    DownloadFile envOk ⟨[], [⟨5, 2, "a.txt", "st/bob/a.txt", 3, 0, 0⟩], [], 6, 0⟩ 5 1 =
      (⟨[], [⟨5, 2, "a.txt", "st/bob/a.txt", 3, 0, 0⟩], [], 6, 0⟩,
       .error MessageFileNotFound) ∧
    DeleteFile envOk ⟨[], [⟨5, 2, "a.txt", "st/bob/a.txt", 3, 0, 0⟩], [], 6, 0⟩ 5 1 =
      (⟨[], [⟨5, 2, "a.txt", "st/bob/a.txt", 3, 0, 0⟩], [], 6, 0⟩,
       .error MessageFileNotFound) :=
  c7_cross_user_not_found envOk _ 5 1 2
    ⟨⟨5, 2, "a.txt", "st/bob/a.txt", 3, 0, 0⟩, by decide, rfl, rfl⟩
    (by decide) (by decide)

/-! ### Claim C6 -/

/-- C6: a successful Delete removes the blob, decreases the owner's
`storage_used` by exactly the file's recorded size (clamped at 0), and
removes the FileRecord; no hypothesis requires the blob to be present, so
a missing blob is not an error; and a second Delete of the same fileID
(under any environment) fails with "File not found".  Hypotheses: the
record exists for this owner (uniquely, as Mongo `_id` lookup guarantees),
the owner's user document exists, the record's size is nonnegative (true
of every committed record), and neither the blob removal nor the ledger
write fails. -/
theorem c6_delete_semantics (env env2 : Env) (s : Store) (fid uid : Nat)
    (file : FileMetadata) (user : User)
    (hf : GetFileByID s fid uid = .ok file)
    (hu : GetUserByID s uid = .ok user)
    (hrm : env.removeFails = false) (hw : env.quotaWriteFails = false)
    (hsz : 0 ≤ file.size)
    (huniq : (s.files.filter (fun g => g.id == fid && g.userId == uid)).length = 1) :
    (DeleteFile env s fid uid).2 = .ok () ∧
    storageUsedOf (DeleteFile env s fid uid).1 uid =
      some (if user.storageUsed - file.size < 0 then 0
            else user.storageUsed - file.size) ∧
    blobAt (DeleteFile env s fid uid).1 file.filePath = none ∧
    (DeleteFile env2 (DeleteFile env s fid uid).1 fid uid).2 =
      .error MessageFileNotFound := by
  have hdel := deleteOneFile_of_find? s.files fid uid file (GetFileByID_ok hf)
  have hu1 : GetUserByID (removeBlob s file.filePath) uid = .ok user := hu
  have hg : ¬((-file.size : Int) > 0 ∧
      (if user.storageUsed + -file.size < 0 then (0 : Int)
       else user.storageUsed + -file.size) > user.storageLimit) := by
    rintro ⟨h1, -⟩
    omega
  have hq := UpdateStorageUsed_eq_ok env (removeBlob s file.filePath) uid
    (-file.size) user hu1 hw hg
  have hrun : DeleteFile env s fid uid =
      ({ users := updateOneUser s.users uid
           (if user.storageUsed + -file.size < 0 then (0 : Int)
            else user.storageUsed + -file.size) s.clock
         files := (deleteOneFile s.files fid uid).1
         blobs := s.blobs.filter (fun b => !(b.1 == file.filePath))
         nextFileId := s.nextFileId
         clock := s.clock + 1 }, .ok ()) := by
    unfold DeleteFile
    rw [hf]
    simp only [hrm, Bool.false_eq_true, if_false]
    rw [hq]
    simp only [DeleteFileMetadata, removeBlob]
    rw [hdel.1]
    simp only [show ((1 : Nat) == 0) = false from rfl, Bool.false_eq_true, if_false]
  have hu2 : GetUserByID (DeleteFile env s fid uid).1 uid = .ok
      { user with
          storageUsed := if user.storageUsed + -file.size < 0 then (0 : Int)
            else user.storageUsed + -file.size
          updatedAt := s.clock } := by
    apply GetUserByID_updateOneUser s uid _ s.clock user hu
    rw [hrun]
  have hgone : GetFileByID (DeleteFile env s fid uid).1 fid uid =
      .error MessageFileNotFound := by
    apply GetFileByID_eq_error_of_count0
    rw [hrun]
    simp only
    omega
  refine ⟨by rw [hrun], ?_, ?_, ?_⟩
  · rw [storageUsedOf_of_users hu2]
    simp [sub_eq_add_neg]
  · rw [hrun]
    exact blobAt_removeBlob_self s file.filePath
  · rw [hrun] at hgone ⊢
    unfold DeleteFile
    rw [hgone]

/-- C6 witness: alice owns a 3-byte file (id 0) with no blob present (a
missing blob is not an error); delete succeeds, storage drops 3 → 0, and
a second delete fails with "File not found". -/
theorem c6_delete_semantics_witness :
    (DeleteFile envOk ⟨[⟨1, "alice", "pw", 512, 3, 0, 0⟩],
        [⟨0, 1, "a.txt", "st/alice/a.txt", 3, 0, 0⟩], [], 1, 5⟩ 0 1).2 = .ok () ∧
    storageUsedOf (DeleteFile envOk ⟨[⟨1, "alice", "pw", 512, 3, 0, 0⟩],
        [⟨0, 1, "a.txt", "st/alice/a.txt", 3, 0, 0⟩], [], 1, 5⟩ 0 1).1 1 =
      some (if (3 : Int) - 3 < 0 then 0 else (3 : Int) - 3) ∧
    blobAt (DeleteFile envOk ⟨[⟨1, "alice", "pw", 512, 3, 0, 0⟩],
        [⟨0, 1, "a.txt", "st/alice/a.txt", 3, 0, 0⟩], [], 1, 5⟩ 0 1).1
      "st/alice/a.txt" = none ∧
    (DeleteFile envOk (DeleteFile envOk ⟨[⟨1, "alice", "pw", 512, 3, 0, 0⟩],
        [⟨0, 1, "a.txt", "st/alice/a.txt", 3, 0, 0⟩], [], 1, 5⟩ 0 1).1 0 1).2 =
      .error MessageFileNotFound :=
  c6_delete_semantics envOk envOk _ 0 1 ⟨0, 1, "a.txt", "st/alice/a.txt", 3, 0, 0⟩
    ⟨1, "alice", "pw", 512, 3, 0, 0⟩ rfl rfl rfl rfl (by decide) (by decide)

/-! ### Claim C5 -/

/-- Helper naming the store `UpdateStorageUsed` leaves behind after a
successful write of `ns` into the user's document. -/
def reservedStore (s : Store) (uid : Nat) (ns : Int) : Store :=
  { s with users := updateOneUser s.users uid ns s.clock, clock := s.clock + 1 }

theorem UpdateStorageUsed_eq_ok_reserved (env : Env) (s : Store) (uid : Nat)
    (d : Int) (user : User) (hu : GetUserByID s uid = .ok user)
    (hw : env.quotaWriteFails = false)
    (hclamp : ¬(user.storageUsed + d < 0))
    (hg : ¬(d > 0 ∧ user.storageUsed + d > user.storageLimit)) :
    UpdateStorageUsed env s uid d = .ok (reservedStore s uid (user.storageUsed + d)) := by
  have h := UpdateStorageUsed_eq_ok env s uid d user hu hw
    (by rw [if_neg hclamp]; exact hg)
  rw [if_neg hclamp] at h
  exact h

theorem tryRemoveBlob_eq (env : Env) (s : Store) (p : String)
    (h : env.removeFails = false) : tryRemoveBlob env s p = removeBlob s p := by
  unfold tryRemoveBlob
  simp [h]

theorem blobAt_CreateFileMetadata (s : Store) (uid : Nat) (fn fp : String)
    (sz : Int) (p : String) :
    blobAt (CreateFileMetadata s uid fn fp sz).1 p = blobAt s p := rfl

/-- C5: once the quota reservation has succeeded, every later upload
failure is compensated before the error is returned: a failure copying the
spool to the final blob location reverses the reservation (the user's
`storage_used` returns to its prior value) and removes the partial blob; a
failure persisting the FileRecord reverses the reservation and removes the
just-written blob; in both cases no FileRecord is created.  And when no
later step fails the upload commits completely — record inserted, blob
holding the content, usage charged — so Upload never returns success with
a partially applied side effect. -/
theorem c5_compensation (env : Env) (sp : String) (s : Store) (uid : Nat)
    (fileName : String) (content : List Nat) (user : User)
    (hu : GetUserByID s uid = .ok user)
    (hused : 0 ≤ user.storageUsed)
    (hmk : env.mkdirFails = false) (htmp : env.tmpCreateFails = false)
    (hrd : env.readFails = false) (hsk : env.seekFails = false)
    (hcd : env.createDestFails = false)
    (hw : env.quotaWriteFails = false) (hrm : env.removeFails = false)
    (hres : ¬((content.length : Int) > 0 ∧
      user.storageUsed + content.length > user.storageLimit)) :
    (env.copyDestFails = true →
      (UploadFile env sp s uid fileName content).2 =
        .error ("failed to save file: " ++ env.copyDestErrText) ∧
      storageUsedOf (UploadFile env sp s uid fileName content).1 uid =
        some user.storageUsed ∧
      blobAt (UploadFile env sp s uid fileName content).1
        (finalPath sp user.username fileName) = none ∧
      (UploadFile env sp s uid fileName content).1.files = s.files) ∧
    (env.copyDestFails = false → env.metaInsertFails = true →
      (UploadFile env sp s uid fileName content).2 =
        .error ("failed to save file metadata: " ++ env.metaInsertErrText) ∧
      storageUsedOf (UploadFile env sp s uid fileName content).1 uid =
        some user.storageUsed ∧
      blobAt (UploadFile env sp s uid fileName content).1
        (finalPath sp user.username fileName) = none ∧
      (UploadFile env sp s uid fileName content).1.files = s.files) ∧
    (env.copyDestFails = false → env.metaInsertFails = false →
      (UploadFile env sp s uid fileName content).2 = .ok
        ⟨s.nextFileId, uid, fileName, finalPath sp user.username fileName,
         (content.length : Int), s.clock + 1, s.clock + 1⟩ ∧
      (UploadFile env sp s uid fileName content).1.files = s.files ++
        [⟨s.nextFileId, uid, fileName, finalPath sp user.username fileName,
          (content.length : Int), s.clock + 1, s.clock + 1⟩] ∧
      blobAt (UploadFile env sp s uid fileName content).1
        (finalPath sp user.username fileName) = some content ∧
      storageUsedOf (UploadFile env sp s uid fileName content).1 uid =
        some (user.storageUsed + content.length)) := by
  have hclamp1 : ¬(user.storageUsed + (content.length : Int) < 0) := by omega
  have hq1 := UpdateStorageUsed_eq_ok_reserved env s uid (content.length : Int)
    user hu hw hclamp1 hres
  have hu2 : GetUserByID (writeBlob (reservedStore s uid
      (user.storageUsed + (content.length : Int)))
      (finalPath sp user.username fileName) []) uid = .ok
      { user with storageUsed := user.storageUsed + (content.length : Int), updatedAt := s.clock } :=
    GetUserByID_updateOneUser s uid _ s.clock user hu _ rfl
  have hu3 : GetUserByID (writeBlob (writeBlob (reservedStore s uid
      (user.storageUsed + (content.length : Int)))
      (finalPath sp user.username fileName) [])
      (finalPath sp user.username fileName) content) uid = .ok
      { user with storageUsed := user.storageUsed + (content.length : Int), updatedAt := s.clock } :=
    GetUserByID_updateOneUser s uid _ s.clock user hu _ rfl
  have hclamp2 : ¬(user.storageUsed + (content.length : Int) +
      -(content.length : Int) < 0) := by omega
  have hg2 : ¬(-(content.length : Int) > 0 ∧
      user.storageUsed + (content.length : Int) + -(content.length : Int) >
        user.storageLimit) := by
    rintro ⟨h1, -⟩
    omega
  refine ⟨?_, ?_, ?_⟩
  · intro hcpy
    have hq2 := UpdateStorageUsed_eq_ok_reserved env
      (writeBlob (reservedStore s uid (user.storageUsed + (content.length : Int)))
        (finalPath sp user.username fileName) [])
      uid (-(content.length : Int))
      { user with storageUsed := user.storageUsed + (content.length : Int), updatedAt := s.clock }
      hu2 hw hclamp2 hg2
    have hrun : UploadFile env sp s uid fileName content =
        (tryRemoveBlob env (reservedStore
            (writeBlob (reservedStore s uid
              (user.storageUsed + (content.length : Int)))
              (finalPath sp user.username fileName) [])
            uid (user.storageUsed + (content.length : Int) +
              -(content.length : Int)))
          (finalPath sp user.username fileName),
         .error ("failed to save file: " ++ env.copyDestErrText)) := by
      unfold UploadFile
      rw [hu]
      simp only [hmk, htmp, hrd, Bool.false_eq_true, if_false]
      rw [hq1]
      simp only [hsk, hcd, Bool.false_eq_true, if_false, hcpy, if_true]
      unfold tryUpdateStorageUsed
      rw [hq2]
    rw [hrun, tryRemoveBlob_eq env _ _ hrm]
    refine ⟨rfl, ?_, ?_, rfl⟩
    · rw [storageUsedOf_of_users (GetUserByID_updateOneUser _ uid _ _ _ hu2 _ rfl)]
      simp only [Option.some.injEq]
      omega
    · exact blobAt_removeBlob_self _ _
  · intro hcpy hmi
    have hq3 := UpdateStorageUsed_eq_ok_reserved env
      (writeBlob (writeBlob (reservedStore s uid
          (user.storageUsed + (content.length : Int)))
          (finalPath sp user.username fileName) [])
        (finalPath sp user.username fileName) content)
      uid (-(content.length : Int))
      { user with storageUsed := user.storageUsed + (content.length : Int), updatedAt := s.clock }
      hu3 hw hclamp2 hg2
    have hrun : UploadFile env sp s uid fileName content =
        (tryRemoveBlob env (reservedStore
            (writeBlob (writeBlob (reservedStore s uid
                (user.storageUsed + (content.length : Int)))
                (finalPath sp user.username fileName) [])
              (finalPath sp user.username fileName) content)
            uid (user.storageUsed + (content.length : Int) +
              -(content.length : Int)))
          (finalPath sp user.username fileName),
         .error ("failed to save file metadata: " ++ env.metaInsertErrText)) := by
      unfold UploadFile
      rw [hu]
      simp only [hmk, htmp, hrd, Bool.false_eq_true, if_false]
      rw [hq1]
      simp only [hsk, hcd, hcpy, Bool.false_eq_true, if_false, hmi, if_true]
      unfold tryUpdateStorageUsed
      rw [hq3]
    rw [hrun, tryRemoveBlob_eq env _ _ hrm]
    refine ⟨rfl, ?_, ?_, rfl⟩
    · rw [storageUsedOf_of_users (GetUserByID_updateOneUser _ uid _ _ _ hu3 _ rfl)]
      simp only [Option.some.injEq]
      omega
    · exact blobAt_removeBlob_self _ _
  · intro hcpy hmi
    have hrun : UploadFile env sp s uid fileName content =
        ((CreateFileMetadata (writeBlob (writeBlob (reservedStore s uid
              (user.storageUsed + (content.length : Int)))
              (finalPath sp user.username fileName) [])
            (finalPath sp user.username fileName) content)
          uid fileName (finalPath sp user.username fileName)
          (content.length : Int)).1,
         .ok (CreateFileMetadata (writeBlob (writeBlob (reservedStore s uid
              (user.storageUsed + (content.length : Int)))
              (finalPath sp user.username fileName) [])
            (finalPath sp user.username fileName) content)
          uid fileName (finalPath sp user.username fileName)
          (content.length : Int)).2) := by
      unfold UploadFile
      rw [hu]
      simp only [hmk, htmp, hrd, Bool.false_eq_true, if_false]
      rw [hq1]
      simp only [hsk, hcd, hcpy, hmi, Bool.false_eq_true, if_false]
    rw [hrun]
    refine ⟨rfl, rfl, ?_, ?_⟩
    · rw [blobAt_CreateFileMetadata]
      exact blobAt_writeBlob_self _ _ _
    · rw [storageUsedOf_of_users (GetUserByID_updateOneUser _ uid _ _ _ hu _ rfl)]

/-! ### Handler-level lemmas -/

theorem UploadFileHandler_error (env : Env) (sp : String) (s : Store) (uid : Nat)
    (fileName : String) (content : List Nat) (s' : Store) (e : String)
    (hpf : env.parseFormFails = false)
    (h : UploadFile env sp s uid fileName content = (s', .error e)) :
    UploadFileHandler env sp s uid (some (fileName, content)) =
      { store := s', status := 400, body := e, file := none } := by
  unfold UploadFileHandler
  simp only [hpf, Bool.false_eq_true, if_false]
  rw [h]

theorem UploadFileHandler_ok (env : Env) (sp : String) (s : Store) (uid : Nat)
    (fileName : String) (content : List Nat) (s' : Store) (m : FileMetadata)
    (hpf : env.parseFormFails = false)
    (h : UploadFile env sp s uid fileName content = (s', .ok m)) :
    UploadFileHandler env sp s uid (some (fileName, content)) =
      { store := s', status := 201, body := MessageFileUploaded, file := some m } := by
  unfold UploadFileHandler
  simp only [hpf, Bool.false_eq_true, if_false]
  rw [h]

theorem UpdateStorageUsed_eq_writeErr (env : Env) (s : Store) (uid : Nat) (d : Int)
    (user : User) (hu : GetUserByID s uid = .ok user)
    (hw : env.quotaWriteFails = true)
    (hg : ¬(d > 0 ∧
      (if user.storageUsed + d < 0 then (0 : Int) else user.storageUsed + d) >
        user.storageLimit)) :
    UpdateStorageUsed env s uid d = .error env.quotaWriteErrText := by
  unfold UpdateStorageUsed
  rw [hu]
  simp only
  rw [if_neg hg, if_pos hw]

/-! ### Claim C10 -/

/-- C10: whenever the Download or Delete service operation returns any
error — a missing or foreign record, a blob open/remove failure, a
quota-ledger write failure — the corresponding handler answers 404 with
the fixed body "File not found", so the client cannot distinguish a
missing file from an internal failure. -/
theorem c10_handlers_generic_404 (env : Env) (s : Store) (fid uid : Nat) :
    (∀ s' e, DownloadFile env s fid uid = (s', .error e) →
      DownloadFileHandler env s true fid uid =
        { store := s', status := 404, body := MessageFileNotFound, payload := none }) ∧
    (∀ s' e, DeleteFile env s fid uid = (s', .error e) →
      DeleteFileHandler env s true fid uid =
        { store := s', status := 404, body := MessageFileNotFound }) := by
  constructor
  · intro s' e h
    unfold DownloadFileHandler
    rw [if_neg (by simp)]
    rw [h]
  · intro s' e h
    unfold DeleteFileHandler
    rw [if_neg (by simp)]
    rw [h]

/-- C10 witness: in the empty store both service calls fail (no record)
and both handlers answer 404 "File not found". -/
theorem c10_handlers_generic_404_witness :
    DownloadFileHandler envOk ⟨[], [], [], 0, 0⟩ true 1 1 =
      { store := ⟨[], [], [], 0, 0⟩, status := 404, body := MessageFileNotFound,
        payload := none } ∧
    DeleteFileHandler envOk ⟨[], [], [], 0, 0⟩ true 1 1 =
      { store := ⟨[], [], [], 0, 0⟩, status := 404, body := MessageFileNotFound } :=
  ⟨(c10_handlers_generic_404 envOk ⟨[], [], [], 0, 0⟩ 1 1).1 _ _ rfl,
   (c10_handlers_generic_404 envOk ⟨[], [], [], 0, 0⟩ 1 1).2 _ _ rfl⟩

/-! ### Claim C8 -/

/-- C8 counterexample: with a metadata-insert store failure whose internal
error text is "mongo: connection reset", the upload handler's 400 response
body is the service error string, which contains the store's internal
error text — refuting the claim that store-layer failures never expose
internal error detail beyond a generic message. -/
theorem c8_store_error_exposed_counterexample :
    (UploadFileHandler
      { envOk with metaInsertFails := true,
                   metaInsertErrText := "mongo: connection reset" }
      "st" ⟨[⟨1, "alice", "pw", 512, 0, 0, 0⟩], [], [], 0, 0⟩ 1
      (some ("a.txt", [7]))).status = 400 ∧
    ∃ pre post,
      (UploadFileHandler
        { envOk with metaInsertFails := true,
                     metaInsertErrText := "mongo: connection reset" }
        "st" ⟨[⟨1, "alice", "pw", 512, 0, 0, 0⟩], [], [], 0, 0⟩ 1
        (some ("a.txt", [7]))).body = pre ++ "mongo: connection reset" ++ post :=
  ⟨rfl, "failed to save file metadata: ", "", rfl⟩

/-- C8 amended: the upload handler passes the service error through
verbatim (body = `err.Error()`): a quota-update store failure yields the
store's raw error text as the body, a blob copy failure yields
"failed to save file: " followed by the OS error text, and a
metadata-insert failure yields "failed to save file metadata: " followed
by the store error text.  Only the list/get/download/delete handlers
replace service errors with fixed generic messages (see C10). -/
theorem c8_amended_error_passthrough (env : Env) (sp : String) (s : Store)
    (uid : Nat) (fileName : String) (content : List Nat) (user : User)
    (hu : GetUserByID s uid = .ok user) (hused : 0 ≤ user.storageUsed)
    (hpf : env.parseFormFails = false)
    (hmk : env.mkdirFails = false) (htmp : env.tmpCreateFails = false)
    (hrd : env.readFails = false) (hsk : env.seekFails = false)
    (hcd : env.createDestFails = false)
    (hres : ¬((content.length : Int) > 0 ∧
      user.storageUsed + content.length > user.storageLimit)) :
    (∀ s' e, UploadFile env sp s uid fileName content = (s', .error e) →
      (UploadFileHandler env sp s uid (some (fileName, content))).status = 400 ∧
      (UploadFileHandler env sp s uid (some (fileName, content))).body = e) ∧
    (env.quotaWriteFails = true →
      (UploadFileHandler env sp s uid (some (fileName, content))).body =
        env.quotaWriteErrText) ∧
    (env.quotaWriteFails = false → env.copyDestFails = true →
      (UploadFileHandler env sp s uid (some (fileName, content))).body =
        "failed to save file: " ++ env.copyDestErrText) ∧
    (env.quotaWriteFails = false → env.copyDestFails = false →
      env.metaInsertFails = true →
      (UploadFileHandler env sp s uid (some (fileName, content))).body =
        "failed to save file metadata: " ++ env.metaInsertErrText) := by
  have hclamp1 : ¬(user.storageUsed + (content.length : Int) < 0) := by omega
  refine ⟨?_, ?_, ?_, ?_⟩
  · intro s' e h
    rw [UploadFileHandler_error env sp s uid fileName content s' e hpf h]
    exact ⟨rfl, rfl⟩
  · intro hwq
    have hrun : UploadFile env sp s uid fileName content =
        (s, .error env.quotaWriteErrText) := by
      unfold UploadFile
      rw [hu]
      simp only [hmk, htmp, hrd, Bool.false_eq_true, if_false]
      rw [UpdateStorageUsed_eq_writeErr env s uid (content.length : Int) user hu hwq
        (by rw [if_neg hclamp1]; exact hres)]
    rw [UploadFileHandler_error env sp s uid fileName content s
      env.quotaWriteErrText hpf hrun]
  · intro hwq hcpy
    have hrun : UploadFile env sp s uid fileName content =
        (tryRemoveBlob env (tryUpdateStorageUsed env
            (writeBlob (reservedStore s uid
              (user.storageUsed + (content.length : Int)))
              (finalPath sp user.username fileName) [])
            uid (-(content.length : Int)))
          (finalPath sp user.username fileName),
         .error ("failed to save file: " ++ env.copyDestErrText)) := by
      unfold UploadFile
      rw [hu]
      simp only [hmk, htmp, hrd, Bool.false_eq_true, if_false]
      rw [UpdateStorageUsed_eq_ok_reserved env s uid (content.length : Int)
        user hu hwq hclamp1 hres]
      simp only [hsk, hcd, Bool.false_eq_true, if_false, hcpy, if_true]
    rw [UploadFileHandler_error env sp s uid fileName content _ _ hpf hrun]
  · intro hwq hcpy hmi
    have hrun : UploadFile env sp s uid fileName content =
        (tryRemoveBlob env (tryUpdateStorageUsed env
            (writeBlob (writeBlob (reservedStore s uid
                (user.storageUsed + (content.length : Int)))
                (finalPath sp user.username fileName) [])
              (finalPath sp user.username fileName) content)
            uid (-(content.length : Int)))
          (finalPath sp user.username fileName),
         .error ("failed to save file metadata: " ++ env.metaInsertErrText)) := by
      unfold UploadFile
      rw [hu]
      simp only [hmk, htmp, hrd, Bool.false_eq_true, if_false]
      rw [UpdateStorageUsed_eq_ok_reserved env s uid (content.length : Int)
        user hu hwq hclamp1 hres]
      simp only [hsk, hcd, hcpy, Bool.false_eq_true, if_false, hmi, if_true]
    rw [UploadFileHandler_error env sp s uid fileName content _ _ hpf hrun]

/-- C8 amended witness: the concrete metadata-failure scenario; the body
is the wrapped store error text. -/
theorem c8_amended_error_passthrough_witness :
    (UploadFileHandler
      { envOk with metaInsertFails := true, metaInsertErrText := "werr" }
      "st" ⟨[⟨1, "alice", "pw", 512, 0, 0, 0⟩], [], [], 0, 0⟩ 1
      (some ("a.txt", [7]))).body = "failed to save file metadata: " ++ "werr" :=
  (c8_amended_error_passthrough
    { envOk with metaInsertFails := true, metaInsertErrText := "werr" }
    "st" ⟨[⟨1, "alice", "pw", 512, 0, 0, 0⟩], [], [], 0, 0⟩ 1 "a.txt" [7]
    ⟨1, "alice", "pw", 512, 0, 0, 0⟩ rfl (by decide) rfl rfl rfl rfl rfl rfl
    (by decide)).2.2.2 rfl rfl rfl

/-- C5 witness: alice (limit 512, usage 0) uploads 2 bytes while the
destination copy fails: the error is returned, usage is back to 0, no blob
remains at the final path, and no record was created. -/
theorem c5_compensation_witness :
    (UploadFile { envOk with copyDestFails := true, copyDestErrText := "disk full" }
      "st" ⟨[⟨1, "alice", "pw", 512, 0, 0, 0⟩], [], [], 0, 0⟩ 1 "a.txt" [7, 7]).2 =
      .error ("failed to save file: " ++ "disk full") ∧
    storageUsedOf
      (UploadFile { envOk with copyDestFails := true, copyDestErrText := "disk full" }
        "st" ⟨[⟨1, "alice", "pw", 512, 0, 0, 0⟩], [], [], 0, 0⟩ 1 "a.txt" [7, 7]).1
      1 = some 0 ∧
    blobAt
      (UploadFile { envOk with copyDestFails := true, copyDestErrText := "disk full" }
        "st" ⟨[⟨1, "alice", "pw", 512, 0, 0, 0⟩], [], [], 0, 0⟩ 1 "a.txt" [7, 7]).1
      (finalPath "st" "alice" "a.txt") = none ∧
    (UploadFile { envOk with copyDestFails := true, copyDestErrText := "disk full" }
      "st" ⟨[⟨1, "alice", "pw", 512, 0, 0, 0⟩], [], [], 0, 0⟩ 1 "a.txt" [7, 7]).1.files
      = [] :=
  (c5_compensation { envOk with copyDestFails := true, copyDestErrText := "disk full" }
    "st" ⟨[⟨1, "alice", "pw", 512, 0, 0, 0⟩], [], [], 0, 0⟩ 1 "a.txt" [7, 7]
    ⟨1, "alice", "pw", 512, 0, 0, 0⟩ rfl (by decide) rfl rfl rfl rfl rfl rfl rfl
    (by decide)).1 rfl

/-! ### Claim C9 -/

/-- C9 counterexample: uploading with a valid multipart form as a user
whose account document is absent returns status 400 with body
"User not found" — not the 404 the claim states for a
user-not-found-equivalent failure. -/
theorem c9_user_not_found_400_counterexample :
    (UploadFileHandler envOk "st" ⟨[], [], [], 0, 0⟩ 1
      (some ("a.txt", [7]))).status = 400 ∧
    (UploadFileHandler envOk "st" ⟨[], [], [], 0, 0⟩ 1
      (some ("a.txt", [7]))).body = MessageUserNotFound ∧
    (UploadFileHandler envOk "st" ⟨[], [], [], 0, 0⟩ 1
      (some ("a.txt", [7]))).status ≠ 404 :=
  ⟨rfl, rfl, by decide⟩

/-- C9 amended: a successful POST /files returns 201 with the message and
the created file; a missing `file` field returns 400 "No file provided";
an exceeded quota returns 400 "Storage limit exceeded"; a user-not-found
failure returns 400 "User not found" — not 404; indeed the upload handler
never returns 404: every response carries status 201 or 400.  (Duplicate
names are not rejected at all; see C2.) -/
theorem c9_amended_upload_statuses (env : Env) (sp : String) (s : Store)
    (uid : Nat) (fileName : String) (content : List Nat) (user : User)
    (hpf : env.parseFormFails = false) :
    (GetUserByID s uid = .ok user → 0 ≤ user.storageUsed →
      env.mkdirFails = false → env.tmpCreateFails = false →
      env.readFails = false → env.seekFails = false →
      env.createDestFails = false → env.quotaWriteFails = false →
      env.copyDestFails = false → env.metaInsertFails = false →
      ¬((content.length : Int) > 0 ∧
        user.storageUsed + content.length > user.storageLimit) →
      (UploadFileHandler env sp s uid (some (fileName, content))).status = 201 ∧
      (UploadFileHandler env sp s uid (some (fileName, content))).body =
        MessageFileUploaded ∧
      (UploadFileHandler env sp s uid (some (fileName, content))).file.isSome =
        true) ∧
    ((UploadFileHandler env sp s uid none).status = 400 ∧
      (UploadFileHandler env sp s uid none).body = "No file provided") ∧
    (GetUserByID s uid = .ok user → env.mkdirFails = false →
      env.tmpCreateFails = false → env.readFails = false →
      0 ≤ user.storageUsed → user.storageUsed ≤ user.storageLimit →
      user.storageUsed + content.length > user.storageLimit →
      (UploadFileHandler env sp s uid (some (fileName, content))).status = 400 ∧
      (UploadFileHandler env sp s uid (some (fileName, content))).body =
        MessageStorageLimitExceeded) ∧
    (GetUserByID s uid = .error MessageUserNotFound →
      (UploadFileHandler env sp s uid (some (fileName, content))).status = 400 ∧
      (UploadFileHandler env sp s uid (some (fileName, content))).body =
        MessageUserNotFound) ∧
    (∀ form, (UploadFileHandler env sp s uid form).status = 201 ∨
      (UploadFileHandler env sp s uid form).status = 400) := by
  refine ⟨?_, ?_, ?_, ?_, ?_⟩
  · intro hu hused hmk htmp hrd hsk hcd hw hcpy hmi hres
    have hclamp1 : ¬(user.storageUsed + (content.length : Int) < 0) := by omega
    have hrun : UploadFile env sp s uid fileName content =
        ((CreateFileMetadata (writeBlob (writeBlob (reservedStore s uid
              (user.storageUsed + (content.length : Int)))
              (finalPath sp user.username fileName) [])
            (finalPath sp user.username fileName) content)
          uid fileName (finalPath sp user.username fileName)
          (content.length : Int)).1,
         .ok (CreateFileMetadata (writeBlob (writeBlob (reservedStore s uid
              (user.storageUsed + (content.length : Int)))
              (finalPath sp user.username fileName) [])
            (finalPath sp user.username fileName) content)
          uid fileName (finalPath sp user.username fileName)
          (content.length : Int)).2) := by
      unfold UploadFile
      rw [hu]
      simp only [hmk, htmp, hrd, Bool.false_eq_true, if_false]
      rw [UpdateStorageUsed_eq_ok_reserved env s uid (content.length : Int)
        user hu hw hclamp1 hres]
      simp only [hsk, hcd, hcpy, hmi, Bool.false_eq_true, if_false]
    rw [UploadFileHandler_ok env sp s uid fileName content _ _ hpf hrun]
    exact ⟨rfl, rfl, rfl⟩
  · have hh : UploadFileHandler env sp s uid none =
        { store := s, status := 400, body := "No file provided", file := none } := by
      unfold UploadFileHandler
      simp only [hpf, Bool.false_eq_true, if_false]
    rw [hh]
    exact ⟨rfl, rfl⟩
  · intro hu hmk htmp hrd hused hlim hover
    have hrun : UploadFile env sp s uid fileName content =
        (s, .error MessageStorageLimitExceeded) := by
      unfold UploadFile
      rw [hu]
      simp only [hmk, htmp, hrd, Bool.false_eq_true, if_false]
      rw [UpdateStorageUsed_eq_error env s uid (content.length : Int) user hu
        ⟨by omega, by rw [if_neg (by omega)]; exact hover⟩]
    rw [UploadFileHandler_error env sp s uid fileName content _ _ hpf hrun]
    exact ⟨rfl, rfl⟩
  · intro hnouser
    have hrun : UploadFile env sp s uid fileName content =
        (s, .error MessageUserNotFound) := by
      unfold UploadFile
      rw [hnouser]
    rw [UploadFileHandler_error env sp s uid fileName content _ _ hpf hrun]
    exact ⟨rfl, rfl⟩
  · intro form
    unfold UploadFileHandler
    rw [if_neg (by simp [hpf])]
    cases form with
    | none => exact Or.inr rfl
    | some p =>
      rcases hUF : UploadFile env sp s uid p.1 p.2 with ⟨s', r⟩
      cases r with
      | error e => simp [hUF]
      | ok m => simp [hUF]

/-- C9 witness: the no-file case at a concrete request — 400 with
"No file provided". -/
theorem c9_amended_upload_statuses_witness :
    (UploadFileHandler envOk "st" ⟨[], [], [], 0, 0⟩ 1 none).status = 400 ∧
    (UploadFileHandler envOk "st" ⟨[], [], [], 0, 0⟩ 1 none).body =
      "No file provided" :=
  (c9_amended_upload_statuses envOk "st" ⟨[], [], [], 0, 0⟩ 1 "a.txt" [7]
    ⟨1, "x", "p", 0, 0, 0, 0⟩ rfl).2.1
